import Mathlib

/-!
Shallow embedding of the evaluation kernel of the Assassyn-CPU Verilator build
(source files Vtop___024root.h, Vtop___024root__DepSet_heccd7ead__0__Slow.cpp,
Vtop__Syms.cpp).  One-bit CData signals are modelled as Bool, wider CData,
IData and QData signals as Nat reduced modulo 2 ^ width wherever the C++
arithmetic can overflow.  Functions whose bodies live in the repository's
fast-path DepSet file (absent here: only declarations and call sites are in
the sources) are modelled from the design specification and are marked with
a doc comment starting with "Modelled from the spec:".
-/

/-- Model state mirroring the DESIGN SPECIFIC STATE block of Vtop___024root.h,
one field per C++ member, in declaration order.  VlTriggerVec<1> becomes one
Bool, VlTriggerVec<2> becomes two Bools. -/
structure Vtop___024root where
  clk : Bool
  Top__DOT____Vcellinp__TriggerCounterImpl__rst_n : Bool
  rst : Bool
  global_finish : Bool
  Top__DOT__clk : Bool
  Top__DOT__rst : Bool
  Top__DOT__global_finish : Bool
  Top__DOT___Driver_executed : Bool
  Top__DOT___Driver_cnt_w_port0 : Bool
  Top__DOT___TriggerCounterImpl_pop_valid : Bool
  Top__DOT__cnt__DOT__clk : Bool
  Top__DOT__cnt__DOT__rst : Bool
  Top__DOT__cnt__DOT__w_port0 : Bool
  Top__DOT__cnt__DOT__widx_port0 : Bool
  Top__DOT__TriggerCounterImpl__DOT__clk : Bool
  Top__DOT__TriggerCounterImpl__DOT__rst_n : Bool
  Top__DOT__TriggerCounterImpl__DOT__delta : Nat
  Top__DOT__TriggerCounterImpl__DOT__delta_ready : Bool
  Top__DOT__TriggerCounterImpl__DOT__pop_ready : Bool
  Top__DOT__TriggerCounterImpl__DOT__pop_valid : Bool
  Top__DOT__TriggerCounterImpl__DOT__count : Nat
  Top__DOT__TriggerCounterImpl__DOT__temp : Nat
  Top__DOT__TriggerCounterImpl__DOT__new_count : Nat
  Top__DOT__Driver__DOT__clk : Bool
  Top__DOT__Driver__DOT__rst : Bool
  Top__DOT__Driver__DOT__trigger_counter_pop_valid : Bool
  Top__DOT__Driver__DOT__executed : Bool
  Top__DOT__Driver__DOT__finish : Bool
  Top__DOT__Driver__DOT__cnt_w_port0 : Bool
  Top__DOT__Driver__DOT__cnt_widx_port0 : Bool
  Top__DOT__Driver__DOT__valid_Driver_cnt_rd_1 : Bool
  __VstlFirstIteration : Bool
  __VicoFirstIteration : Bool
  __Vtrigprevexpr___TOP__clk__0 : Bool
  __Vtrigprevexpr___TOP__Top__DOT____Vcellinp__TriggerCounterImpl__rst_n__0 : Bool
  __VactContinue : Bool
  Top__DOT___Driver_cnt_wdata_port0 : Nat
  Top__DOT___cnt_rdata_port0 : Nat
  Top__DOT___cnt_rdata_port1 : Nat
  Top__DOT__cnt__DOT__wdata_port0 : Nat
  Top__DOT__cnt__DOT__rdata_port0 : Nat
  Top__DOT__cnt__DOT__rdata_port1 : Nat
  Top__DOT__cnt__DOT___GEN : Nat
  Top__DOT__cnt__DOT___GEN_0 : Nat
  Top__DOT__Driver__DOT__cnt_rdata_port0 : Nat
  Top__DOT__Driver__DOT__cnt_rdata_port1 : Nat
  Top__DOT__Driver__DOT__cnt_wdata_port0 : Nat
  Top__DOT__Driver__DOT__expose_Driver_cnt_rd_1 : Nat
  __VactIterCount : Nat
  global_cycle_count : Nat
  Top__DOT__global_cycle_count : Nat
  Top__DOT___GEN : Nat
  Top__DOT__Driver__DOT__cycle_count : Nat
  __VstlTriggered : Bool
  __VicoTriggered : Bool
  __VactTriggered0 : Bool
  __VactTriggered1 : Bool
  __VnbaTriggered0 : Bool
  __VnbaTriggered1 : Bool

/-- Payload of a VL_FATAL_MT call: reporting file, line and message. -/
structure VlFatal where
  file : String
  line : Nat
  msg : String
deriving DecidableEq

/-- The one fatal the kernel can raise, from the VL_FATAL_MT call inside
Vtop___024root___eval_settle (Slow.cpp line 66). -/
def vlSettleErr : VlFatal :=
  { file := "/home/tomorrow_arc1/CS/assassyn/MyCPU/workspace/driver/verilog/sv/hw/Top.sv"
    line := 2
    msg := "Settle region did not converge." }

/-- The compile-time settle iteration cap, the literal 0x64 compared against
the iteration counter in Vtop___024root___eval_settle (Slow.cpp line 62). -/
def settleIterCap : Nat := 0x64

/-- The while loop of Vtop___024root___eval_settle (Slow.cpp lines 58-74),
parameterised by the phase function it repeatedly calls.  The fuel argument
stands for the number of loop passes still allowed before the guard
0x64 < iterCount fires: a call with iterCount = k corresponds to fuel
(settleIterCap + 1) - k, so the loop body that observes iterCount = k runs at
fuel (settleIterCap + 1) - k and the fatal branch is exactly fuel = 0.  The
second component of the result counts the phase evaluations performed. -/
def settleAux {α : Type} (phase : α → α × Bool) : Nat → α → Except VlFatal α × Nat
  | 0, _ => (Except.error vlSettleErr, 0)
  | n + 1, s =>
    let p := phase s
    if p.2 then
      let r := settleAux phase n p.1
      (r.1, r.2 + 1)
    else (Except.ok p.1, 1)

/-- Predicate on a phase function: each of the first n phase evaluations
reported a fired trigger (asked the settle loop to continue). -/
def allFire {α : Type} (phase : α → α × Bool) : Nat → α → Bool
  | 0, _ => true
  | n + 1, s => (phase s).2 && allFire phase n (phase s).1

/-- Boolean success test for an Except value. -/
def exceptIsOk {ε α : Type} : Except ε α → Bool
  | Except.ok _ => true
  | Except.error _ => false

/-- Translated from Vtop___024root___eval_static (Slow.cpp lines 8-12): the
body only contains an unused-variable cast and a debug print, so the model
state is returned unchanged. -/
def Vtop___024root___eval_static (s : Vtop___024root) : Vtop___024root := s

/-- Translated from Vtop___024root___eval_final (Slow.cpp lines 39-43): the
body only contains an unused-variable cast and a debug print, so the model
state is returned unchanged. -/
def Vtop___024root___eval_final (s : Vtop___024root) : Vtop___024root := s

/-- Translated from Vtop___024root___eval_initial__TOP (Slow.cpp lines 27-37):
the five initial assignments of the design. -/
def Vtop___024root___eval_initial__TOP (s : Vtop___024root) : Vtop___024root :=
  { s with
    Top__DOT__global_finish := false
    Top__DOT__Driver__DOT__finish := false
    Top__DOT__Driver__DOT__cnt_widx_port0 := false
    Top__DOT__cnt__DOT__widx_port0 := false
    Top__DOT__TriggerCounterImpl__DOT__delta := 1 }

/-- Translated from Vtop___024root___eval_initial (Slow.cpp lines 16-25): run
the initial block, then snapshot the two sensitivity signals into their
previous-value trigger fields. -/
def Vtop___024root___eval_initial (s : Vtop___024root) : Vtop___024root :=
  let s1 := Vtop___024root___eval_initial__TOP s
  { s1 with
    __Vtrigprevexpr___TOP__clk__0 := s1.clk
    __Vtrigprevexpr___TOP__Top__DOT____Vcellinp__TriggerCounterImpl__rst_n__0 :=
      s1.Top__DOT____Vcellinp__TriggerCounterImpl__rst_n }

/-- Modelled from the spec: Vtop___024root___eval_triggers__stl is declared
and called in Slow.cpp (line 104/113) but its body lives in the fast-path
DepSet file, absent from the sources.  Per Slow.cpp's dump_triggers__stl the
settle region has exactly one trigger, "Internal 'stl' trigger - first
iteration", so the trigger bit is the first-iteration flag (spec section 4.3:
the first iteration is marked distinctly and forces the settle region). -/
def Vtop___024root___eval_triggers__stl (s : Vtop___024root) : Vtop___024root :=
  { s with __VstlTriggered := s.__VstlFirstIteration }

/-- Modelled from the spec: Vtop___024root___ico_sequent__TOP__0 is declared
in Slow.cpp (line 92) and run by eval_stl, but its body lives in the
fast-path DepSet file, absent from the sources.  Per spec sections 2-4 it is
the combinational (continuous-assignment) region: it propagates the external
inputs into the per-module copies, derives the active-low reset from rst, and
drives the outputs from the Driver state.  Every written signal is a function
of signals the region does not write. -/
def Vtop___024root___ico_sequent__TOP__0 (s : Vtop___024root) : Vtop___024root :=
  { s with
    Top__DOT__clk := s.clk
    Top__DOT__rst := s.rst
    Top__DOT____Vcellinp__TriggerCounterImpl__rst_n := !s.rst
    Top__DOT__cnt__DOT__clk := s.clk
    Top__DOT__cnt__DOT__rst := s.rst
    Top__DOT__TriggerCounterImpl__DOT__clk := s.clk
    Top__DOT__TriggerCounterImpl__DOT__rst_n := !s.rst
    Top__DOT__Driver__DOT__clk := s.clk
    Top__DOT__Driver__DOT__rst := s.rst
    Top__DOT__global_finish := s.Top__DOT__Driver__DOT__finish
    global_finish := s.Top__DOT__Driver__DOT__finish
    Top__DOT__global_cycle_count := s.Top__DOT__Driver__DOT__cycle_count
    global_cycle_count := s.Top__DOT__Driver__DOT__cycle_count }

/-- Translated from Vtop___024root___eval_stl (Slow.cpp lines 94-102): run
the combinational sequent body when settle trigger bit 0 is set. -/
def Vtop___024root___eval_stl (s : Vtop___024root) : Vtop___024root :=
  if s.__VstlTriggered then Vtop___024root___ico_sequent__TOP__0 s else s

/-- Translated from Vtop___024root___eval_phase__stl (Slow.cpp lines 106-119):
recompute the settle triggers, run eval_stl when any trigger fired, and
report whether one fired. -/
def Vtop___024root___eval_phase__stl (s : Vtop___024root) : Vtop___024root × Bool :=
  let t := Vtop___024root___eval_triggers__stl s
  if t.__VstlTriggered then (Vtop___024root___eval_stl t, true) else (t, false)

/-- One pass of the while loop of Vtop___024root___eval_settle (Slow.cpp
lines 61-74): run the phase, then clear the first-iteration flag. -/
def stlLoopBody (s : Vtop___024root) : Vtop___024root × Bool :=
  let p := Vtop___024root___eval_phase__stl s
  ({ p.1 with __VstlFirstIteration := false }, p.2)

/-- Translated from Vtop___024root___eval_settle (Slow.cpp lines 50-75): the
iteration counter starts at zero (hence full fuel settleIterCap + 1), the
first-iteration flag is raised, and the loop of settleAux runs.  The second
component is the number of phase evaluations performed. -/
def Vtop___024root___eval_settle_run (s : Vtop___024root) :
    Except VlFatal Vtop___024root × Nat :=
  settleAux stlLoopBody (settleIterCap + 1) { s with __VstlFirstIteration := true }

/-- The Except-valued view of eval_settle. -/
def Vtop___024root___eval_settle (s : Vtop___024root) : Except VlFatal Vtop___024root :=
  (Vtop___024root___eval_settle_run s).1

/-- The state eval_settle converges to: the combinational region applied
once, with the first-iteration flag and the settle trigger cleared. -/
def vl_stl_fix (s : Vtop___024root) : Vtop___024root :=
  { Vtop___024root___ico_sequent__TOP__0 s with
    __VstlFirstIteration := false
    __VstlTriggered := false }

/-- Modelled from the spec: the active-region trigger computation
(eval_triggers__act, declared only via its dump_triggers__act companion in
Slow.cpp lines 137-152) lives in the fast-path DepSet file, absent from the
sources.  Per the dump comments, trigger 0 is posedge clk and trigger 1 is
negedge Top.__Vcellinp__TriggerCounterImpl__rst_n or posedge clk, each edge
detected by comparing the current value against the snapshotted previous
value (spec section 4.2). -/
def computeActTriggers (s : Vtop___024root) : Bool × Bool :=
  (s.clk && !s.__Vtrigprevexpr___TOP__clk__0,
   (s.clk && !s.__Vtrigprevexpr___TOP__clk__0) ||
     (!s.Top__DOT____Vcellinp__TriggerCounterImpl__rst_n &&
       s.__Vtrigprevexpr___TOP__Top__DOT____Vcellinp__TriggerCounterImpl__rst_n__0))

/-- Modelled from the spec: the active-region sequent body lives in the
fast-path DepSet file, absent from the sources.  Per spec section 8's
concrete scenario it computes the next counter value combinationally from
the old register value: temp = count + delta (8-bit), and new_count is that
sum when the active-low reset is deasserted and 0 when reset is asserted. -/
def vl_act_sequent (s : Vtop___024root) : Vtop___024root :=
  { s with
    Top__DOT__TriggerCounterImpl__DOT__temp :=
      (s.Top__DOT__TriggerCounterImpl__DOT__count +
        s.Top__DOT__TriggerCounterImpl__DOT__delta) % 2 ^ 8
    Top__DOT__TriggerCounterImpl__DOT__new_count :=
      if s.Top__DOT__TriggerCounterImpl__DOT__rst_n then
        (s.Top__DOT__TriggerCounterImpl__DOT__count +
          s.Top__DOT__TriggerCounterImpl__DOT__delta) % 2 ^ 8
      else 0 }

/-- Modelled from the spec: the non-blocking-commit sequent body lives in the
fast-path DepSet file, absent from the sources.  Per spec sections 4.4 and 8
it commits the register values computed by the active region: on trigger 1
(the count flop's sensitivity) count takes new_count, and on trigger 0
(posedge clk) the Driver cycle counter advances (64-bit) and is exposed on
the global_cycle_count outputs. -/
def vl_nba_sequent (s : Vtop___024root) (t0 t1 : Bool) : Vtop___024root :=
  let s1 :=
    if t1 then
      { s with
        Top__DOT__TriggerCounterImpl__DOT__count :=
          s.Top__DOT__TriggerCounterImpl__DOT__new_count }
    else s
  if t0 then
    { s1 with
      Top__DOT__Driver__DOT__cycle_count :=
        (s1.Top__DOT__Driver__DOT__cycle_count + 1) % 2 ^ 64
      Top__DOT__global_cycle_count :=
        (s1.Top__DOT__Driver__DOT__cycle_count + 1) % 2 ^ 64
      global_cycle_count :=
        (s1.Top__DOT__Driver__DOT__cycle_count + 1) % 2 ^ 64 }
  else s1

/-- Modelled from the spec: one Region Scheduler step (spec section 4.4).
The input-combinational region propagates the externally written inputs,
the trigger bitset is computed once, the active region runs when its mask
intersects the bitset, the non-blocking-commit region runs against the same
bitset (not re-sampled), and finally the previous values of the sensitivity
signals are snapshotted for the next step's trigger detector. -/
def vl_step (s : Vtop___024root) : Vtop___024root :=
  let s0 := Vtop___024root___ico_sequent__TOP__0 s
  let t := computeActTriggers s0
  let s1 := if t.1 || t.2 then vl_act_sequent s0 else s0
  let s2 := vl_nba_sequent s1 t.1 t.2
  { s2 with
    __Vtrigprevexpr___TOP__clk__0 := s2.clk
    __Vtrigprevexpr___TOP__Top__DOT____Vcellinp__TriggerCounterImpl__rst_n__0 :=
      s2.Top__DOT____Vcellinp__TriggerCounterImpl__rst_n
    __VactTriggered0 := t.1
    __VactTriggered1 := t.2
    __VnbaTriggered0 := t.1
    __VnbaTriggered1 := t.2 }

/-- Modelled from the spec: the Step Driver writes the clock and reset inputs
into the Signal Store before invoking the Region Scheduler. -/
def vl_set_inputs (s : Vtop___024root) (c r : Bool) : Vtop___024root :=
  { s with clk := c, rst := r }

/-- One externally driven evaluation: write the inputs, then run one step. -/
def vl_drive (s : Vtop___024root) (c r : Bool) : Vtop___024root :=
  vl_step (vl_set_inputs s c r)

/-- One full clock cycle at a fixed reset level: drive the clock low, then
drive it high (the 0 to 1 transition of the spec's concrete scenario). -/
def vl_clock_cycle (s : Vtop___024root) (r : Bool) : Vtop___024root :=
  vl_drive (vl_drive s false r) true r

/-- Iterated clock cycles with the reset input held low. -/
def vl_cycles : Nat → Vtop___024root → Vtop___024root
  | 0, s => s
  | n + 1, s => vl_cycles n (vl_clock_cycle s false)

/-- A fully concrete model state: every Bool field false and every Nat field
zero, standing for a freshly zero-initialised store. -/
def vl_zero_state : Vtop___024root :=
  { clk := false
    Top__DOT____Vcellinp__TriggerCounterImpl__rst_n := false
    rst := false
    global_finish := false
    Top__DOT__clk := false
    Top__DOT__rst := false
    Top__DOT__global_finish := false
    Top__DOT___Driver_executed := false
    Top__DOT___Driver_cnt_w_port0 := false
    Top__DOT___TriggerCounterImpl_pop_valid := false
    Top__DOT__cnt__DOT__clk := false
    Top__DOT__cnt__DOT__rst := false
    Top__DOT__cnt__DOT__w_port0 := false
    Top__DOT__cnt__DOT__widx_port0 := false
    Top__DOT__TriggerCounterImpl__DOT__clk := false
    Top__DOT__TriggerCounterImpl__DOT__rst_n := false
    Top__DOT__TriggerCounterImpl__DOT__delta := 0
    Top__DOT__TriggerCounterImpl__DOT__delta_ready := false
    Top__DOT__TriggerCounterImpl__DOT__pop_ready := false
    Top__DOT__TriggerCounterImpl__DOT__pop_valid := false
    Top__DOT__TriggerCounterImpl__DOT__count := 0
    Top__DOT__TriggerCounterImpl__DOT__temp := 0
    Top__DOT__TriggerCounterImpl__DOT__new_count := 0
    Top__DOT__Driver__DOT__clk := false
    Top__DOT__Driver__DOT__rst := false
    Top__DOT__Driver__DOT__trigger_counter_pop_valid := false
    Top__DOT__Driver__DOT__executed := false
    Top__DOT__Driver__DOT__finish := false
    Top__DOT__Driver__DOT__cnt_w_port0 := false
    Top__DOT__Driver__DOT__cnt_widx_port0 := false
    Top__DOT__Driver__DOT__valid_Driver_cnt_rd_1 := false
    __VstlFirstIteration := false
    __VicoFirstIteration := false
    __Vtrigprevexpr___TOP__clk__0 := false
    __Vtrigprevexpr___TOP__Top__DOT____Vcellinp__TriggerCounterImpl__rst_n__0 := false
    __VactContinue := false
    Top__DOT___Driver_cnt_wdata_port0 := 0
    Top__DOT___cnt_rdata_port0 := 0
    Top__DOT___cnt_rdata_port1 := 0
    Top__DOT__cnt__DOT__wdata_port0 := 0
    Top__DOT__cnt__DOT__rdata_port0 := 0
    Top__DOT__cnt__DOT__rdata_port1 := 0
    Top__DOT__cnt__DOT___GEN := 0
    Top__DOT__cnt__DOT___GEN_0 := 0
    Top__DOT__Driver__DOT__cnt_rdata_port0 := 0
    Top__DOT__Driver__DOT__cnt_rdata_port1 := 0
    Top__DOT__Driver__DOT__cnt_wdata_port0 := 0
    Top__DOT__Driver__DOT__expose_Driver_cnt_rd_1 := 0
    __VactIterCount := 0
    global_cycle_count := 0
    Top__DOT__global_cycle_count := 0
    Top__DOT___GEN := 0
    Top__DOT__Driver__DOT__cycle_count := 0
    __VstlTriggered := false
    __VicoTriggered := false
    __VactTriggered0 := false
    __VactTriggered1 := false
    __VnbaTriggered0 := false
    __VnbaTriggered1 := false }

/-- The reset state of the spec's concrete scenario: the zero store taken
through the initial blocks and the settle loop, so delta = 1, count = 0,
clk = 0 and the previous-value snapshots agree with the current values. -/
def vl_reset_state : Vtop___024root :=
  vl_stl_fix (Vtop___024root___eval_initial vl_zero_state)

/-- A full simulation run: settle once, then apply the given sequence of
(clk, rst) input writes, recording the (global_finish, global_cycle_count)
output pair after each step. -/
def vl_sim_go : Vtop___024root → List (Bool × Bool) → List (Bool × Nat)
  | _, [] => []
  | s, (c, r) :: rest =>
    let s1 := vl_drive s c r
    (s1.global_finish, s1.global_cycle_count) :: vl_sim_go s1 rest

/-- Outputs of the complete run of the evaluation kernel from a given state
under a fixed sequence of input writes. -/
def vl_sim_run (s : Vtop___024root) (ins : List (Bool × Bool)) : List (Bool × Nat) :=
  match Vtop___024root___eval_settle s with
  | Except.ok t => vl_sim_go t ins
  | Except.error _ => []

/-- A phase function whose trigger fires on every evaluation, the shape of
the spec's deliberately cyclic combinational pair that toggles forever. -/
def phaseAlways (n : Nat) : Nat × Bool := (n + 1, true)

/-- A phase function whose trigger still fires on the 100th evaluation and
first reports convergence on the 101st. -/
def phaseConv101 (n : Nat) : Nat × Bool := (n + 1, decide (n < settleIterCap))

/-- Characterisation of the settle while loop: either some phase evaluation
among the first n reports no fired trigger and the loop stops successfully
there, or all n allowed phase evaluations fire and the loop fails. -/
theorem settleAux_dichotomy {α : Type} (phase : α → α × Bool) :
    ∀ (n : Nat) (s : α),
      (exceptIsOk (settleAux phase n s).1 = true ∧ 1 ≤ (settleAux phase n s).2 ∧
        (settleAux phase n s).2 ≤ n ∧ allFire phase (settleAux phase n s).2 s = false)
      ∨ (exceptIsOk (settleAux phase n s).1 = false ∧ (settleAux phase n s).2 = n ∧
          allFire phase n s = true) := by
  intro n
  induction n with
  | zero =>
    intro s
    exact Or.inr ⟨rfl, rfl, rfl⟩
  | succ n ih =>
    intro s
    by_cases h : (phase s).2 = true
    · rcases ih (phase s).1 with ⟨h1, h2, h3, h4⟩ | ⟨h1, h2, h3⟩
      · refine Or.inl ⟨?_, ?_, ?_, ?_⟩
        · simpa [settleAux, h] using h1
        · simp [settleAux, h]
        · simp only [settleAux, h, if_true]
          omega
        · simp only [settleAux, h, if_true]
          simp [allFire, h, h4]
      · refine Or.inr ⟨?_, ?_, ?_⟩
        · simpa [settleAux, h] using h1
        · simp [settleAux, h, h2]
        · simp [allFire, h, h3]
    · simp only [Bool.not_eq_true] at h
      refine Or.inl ⟨?_, ?_, ?_, ?_⟩
      · simp [settleAux, h, exceptIsOk]
      · simp [settleAux, h]
      · simp [settleAux, h]
      · simp [settleAux, h, allFire]

/-- When the first n phase evaluations all fire, so do the first m for any
m at most n. -/
theorem allFire_mono {α : Type} (phase : α → α × Bool) :
    ∀ (n m : Nat) (s : α), m ≤ n → allFire phase n s = true → allFire phase m s = true := by
  intro n
  induction n with
  | zero =>
    intro m s hm _
    interval_cases m
    rfl
  | succ n ih =>
    intro m s hm hf
    cases m with
    | zero => rfl
    | succ m =>
      simp only [allFire, Bool.and_eq_true] at hf ⊢
      exact ⟨hf.1, ih m (phase s).1 (by omega) hf.2⟩

/-- The non-blocking-commit region never touches the settle first-iteration
flag. -/
theorem vl_nba_sequent_flag (s : Vtop___024root) (t0 t1 : Bool) :
    (vl_nba_sequent s t0 t1).__VstlFirstIteration = s.__VstlFirstIteration := by
  cases t0 <;> cases t1 <;> rfl

/-- Ordinary per-step evaluation never touches the settle first-iteration
flag. -/
theorem vl_step_flag (t : Vtop___024root) :
    (vl_step t).__VstlFirstIteration = t.__VstlFirstIteration := by
  unfold vl_step
  dsimp only
  rw [vl_nba_sequent_flag]
  split <;> rfl

/-- Claim C1: in a step whose clock edge triggers both the active and the
non-blocking-commit regions, the committed register value is computed from
the pre-step register state: with delta = 1 the counter register reflects
exactly one increment of its old value after one step, never two, even
though the active region recomputes combinational signals (temp, new_count)
that depend on the same register during the same step. -/
theorem claim_C1_commit_ordering (s : Vtop___024root) (h1 : s.clk = true)
    (h2 : s.__Vtrigprevexpr___TOP__clk__0 = false) (h3 : s.rst = false)
    (h4 : s.Top__DOT__TriggerCounterImpl__DOT__delta = 1) :
    (vl_step s).Top__DOT__TriggerCounterImpl__DOT__count =
      (s.Top__DOT__TriggerCounterImpl__DOT__count + 1) % 2 ^ 8 := by
  simp [vl_step, Vtop___024root___ico_sequent__TOP__0, computeActTriggers,
    vl_act_sequent, vl_nba_sequent, h1, h2, h3, h4]

/-- Witness for claim C1 at the concrete reset state with the clock raised. -/
theorem claim_C1_commit_ordering_witness :
    (vl_step { vl_reset_state with clk := true }).Top__DOT__TriggerCounterImpl__DOT__count =
      ({ vl_reset_state with clk := true }.Top__DOT__TriggerCounterImpl__DOT__count + 1) % 2 ^ 8 :=
  claim_C1_commit_ordering { vl_reset_state with clk := true } rfl rfl rfl rfl

/-- Counterexample to claim C2 as stated: a phase function that still fires
its trigger on the 100th evaluation (so the settle region has not converged
within the configured cap 0x64 = 100) but converges on the 101st makes the
settle loop succeed with no fatal at all, contradicting "fails fatally if
and only if the settle region has not converged within the configured
constant iteration cap". -/
theorem claim_C2_counterexample :
    exceptIsOk (settleAux phaseConv101 (settleIterCap + 1) 0).1 = true ∧
      allFire phaseConv101 settleIterCap 0 = true := by decide

/-- Claim C2 amended: the settle loop of eval_settle fails fatally if and
only if the settle-region trigger fires on every one of the first
settleIterCap + 1 = 101 phase evaluations — one more than the 0x64 constant —
and in that case the fatal is reported after exactly settleIterCap + 1 phase
evaluations, never earlier; every eval_settle call restarts the loop with the
iteration counter at zero, i.e. with the full fuel settleIterCap + 1. -/
theorem claim_C2_settle_cap_amended (α : Type) (phase : α → α × Bool) (s : α) :
    (exceptIsOk (settleAux phase (settleIterCap + 1) s).1 = false ↔
      allFire phase (settleIterCap + 1) s = true)
    ∧ (allFire phase (settleIterCap + 1) s = true →
        (settleAux phase (settleIterCap + 1) s).2 = settleIterCap + 1)
    ∧ (∀ t : Vtop___024root, Vtop___024root___eval_settle_run t =
        settleAux stlLoopBody (settleIterCap + 1) { t with __VstlFirstIteration := true }) := by
  refine ⟨⟨?_, ?_⟩, ?_, fun t => rfl⟩
  · intro h
    rcases settleAux_dichotomy phase (settleIterCap + 1) s with ⟨h1, _, _, _⟩ | ⟨_, _, h3⟩
    · rw [h1] at h
      exact Bool.noConfusion h
    · exact h3
  · intro h
    rcases settleAux_dichotomy phase (settleIterCap + 1) s with ⟨h1, _, h3, h4⟩ | ⟨h1, _, _⟩
    · have := allFire_mono phase (settleIterCap + 1)
        (settleAux phase (settleIterCap + 1) s).2 s h3 h
      rw [this] at h4
      exact Bool.noConfusion h4
    · exact h1
  · intro h
    rcases settleAux_dichotomy phase (settleIterCap + 1) s with ⟨h1, _, h3, h4⟩ | ⟨_, h2, _⟩
    · have := allFire_mono phase (settleIterCap + 1)
        (settleAux phase (settleIterCap + 1) s).2 s h3 h
      rw [this] at h4
      exact Bool.noConfusion h4
    · exact h2

/-- Witness for the amended claim C2 on the always-firing phase function. -/
theorem claim_C2_settle_cap_witness :
    allFire phaseAlways (settleIterCap + 1) (0 : Nat) = true ∧
      (settleAux phaseAlways (settleIterCap + 1) (0 : Nat)).2 = settleIterCap + 1 :=
  ⟨by decide, (claim_C2_settle_cap_amended Nat phaseAlways 0).2.1 (by decide)⟩

/-- Claim C3: in the 8-bit counter scenario, from the reset state (the zero
store taken through the initial blocks and settle, so delta = 1), driving
clk from 0 to 1 five times with rst = 0 leaves count = 5, and one further
clock cycle with rst = 1 leaves count = 0 regardless of the prior state. -/
theorem claim_C3_counter_scenario :
    (vl_cycles 5 vl_reset_state).Top__DOT__TriggerCounterImpl__DOT__count = 5
    ∧ ∀ s : Vtop___024root,
        (vl_clock_cycle s true).Top__DOT__TriggerCounterImpl__DOT__count = 0 := by
  refine ⟨rfl, ?_⟩
  intro s
  cases h : s.__Vtrigprevexpr___TOP__Top__DOT____Vcellinp__TriggerCounterImpl__rst_n__0 <;>
    simp [vl_clock_cycle, vl_drive, vl_set_inputs, vl_step,
      Vtop___024root___ico_sequent__TOP__0, computeActTriggers,
      vl_act_sequent, vl_nba_sequent, h]

/-- Claim C4: eval_settle converges to vl_stl_fix of its argument, and on a
state that settle has already produced (with no intervening input change) a
second settle call returns that very state unchanged: every signal of the
store is left as it was. -/
theorem claim_C4_settle_idempotent (s : Vtop___024root) :
    Vtop___024root___eval_settle s = Except.ok (vl_stl_fix s)
    ∧ Vtop___024root___eval_settle (vl_stl_fix s) = Except.ok (vl_stl_fix s) :=
  ⟨rfl, rfl⟩

/-- Claim C5: raising the first-iteration flag forces the settle-region
trigger on the first pass of the loop, the flag is cleared after that pass,
a phase evaluation with the flag clear fires no trigger and changes nothing
but the trigger bit, ordinary step evaluation leaves the flag untouched, and
a whole eval_settle call performs exactly two phase evaluations — the forced
first one that runs the settle-region logic once, and a second that fires
nothing — ending with the flag cleared in vl_stl_fix. -/
theorem claim_C5_first_iteration_forcing (s t : Vtop___024root) :
    (stlLoopBody { s with __VstlFirstIteration := true }).2 = true
    ∧ (stlLoopBody { s with __VstlFirstIteration := true }).1.__VstlFirstIteration = false
    ∧ (stlLoopBody { s with __VstlFirstIteration := true }).1 =
        { Vtop___024root___ico_sequent__TOP__0
            { s with __VstlFirstIteration := true, __VstlTriggered := true } with
          __VstlFirstIteration := false }
    ∧ Vtop___024root___eval_phase__stl { t with __VstlFirstIteration := false } =
        ({ t with __VstlFirstIteration := false, __VstlTriggered := false }, false)
    ∧ (vl_step t).__VstlFirstIteration = t.__VstlFirstIteration
    ∧ Vtop___024root___eval_settle_run s = (Except.ok (vl_stl_fix s), 2) :=
  ⟨rfl, rfl, rfl, rfl, vl_step_flag t, rfl⟩

/-- Claim C6: the evaluation kernel is deterministic: for a fixed initial
state and a fixed sequence of input writes, two complete runs (settle
followed by the same sequence of steps) produce identical traces of the
(global_finish, global_cycle_count) outputs after each step. -/
theorem claim_C6_determinism (s : Vtop___024root) (ins : List (Bool × Bool))
    (t1 t2 : List (Bool × Nat)) (h1 : vl_sim_run s ins = t1) (h2 : vl_sim_run s ins = t2) :
    t1 = t2 :=
  h1.symm.trans h2

/-- Witness for claim C6: two one-step runs from the initialised zero store
both produce the trace with finish low and cycle count one. -/
theorem claim_C6_determinism_witness :
    vl_sim_run (Vtop___024root___eval_initial vl_zero_state) [(true, false)] =
        [(false, 1)]
    ∧ ([((false : Bool), (1 : Nat))] : List (Bool × Nat)) = [(false, 1)] :=
  ⟨rfl, claim_C6_determinism (Vtop___024root___eval_initial vl_zero_state)
    [(true, false)] [(false, 1)] [(false, 1)] rfl rfl⟩

/-- Counterexample to claim C7 as stated: on the always-firing phase (the
deliberately cyclic toggler) the settle loop raises the fatal only after
settleIterCap + 1 = 101 phase evaluations, which is not "at most the
iteration cap" of 0x64 = 100 evaluations. -/
theorem claim_C7_counterexample :
    exceptIsOk (settleAux phaseAlways (settleIterCap + 1) (0 : Nat)).1 = false ∧
      (settleAux phaseAlways (settleIterCap + 1) (0 : Nat)).2 = settleIterCap + 1 ∧
      ¬(settleIterCap + 1 ≤ settleIterCap) := by decide

/-- Claim C7 amended: the settle loop always terminates; for every phase
function and starting state it either succeeds after between 1 and
settleIterCap + 1 = 101 phase evaluations, the last of which fired no
settle-region trigger (a reached fixed point), or it raises the fatal
non-convergence error after exactly settleIterCap + 1 phase evaluations
(one more than the 0x64 cap); it can never iterate unboundedly. -/
theorem claim_C7_termination_amended (α : Type) (phase : α → α × Bool) (s : α) :
    (exceptIsOk (settleAux phase (settleIterCap + 1) s).1 = true ∧
      1 ≤ (settleAux phase (settleIterCap + 1) s).2 ∧
      (settleAux phase (settleIterCap + 1) s).2 ≤ settleIterCap + 1 ∧
      allFire phase (settleAux phase (settleIterCap + 1) s).2 s = false)
    ∨ (exceptIsOk (settleAux phase (settleIterCap + 1) s).1 = false ∧
        (settleAux phase (settleIterCap + 1) s).2 = settleIterCap + 1 ∧
        allFire phase (settleIterCap + 1) s = true) :=
  settleAux_dichotomy phase (settleIterCap + 1) s

/-- Claim C8: the only run-time error the evaluation kernel can produce is
settle non-convergence, and any error the settle loop raises carries exactly
the logical source location Top.sv line 2 and the message "Settle region did
not converge."; moreover in this build eval_settle in fact always succeeds,
and the remaining evaluation operations are total functions with no error
path at all. -/
theorem claim_C8_error_paths (α : Type) (phase : α → α × Bool) (n : Nat) (s : α)
    (e : VlFatal) :
    ((settleAux phase n s).1 = Except.error e →
      e.file = "/home/tomorrow_arc1/CS/assassyn/MyCPU/workspace/driver/verilog/sv/hw/Top.sv" ∧
        e.line = 2 ∧ e.msg = "Settle region did not converge.")
    ∧ (∀ t : Vtop___024root,
        Vtop___024root___eval_settle t = Except.ok (vl_stl_fix t)) := by
  constructor
  · induction n generalizing s with
    | zero =>
      intro h
      simp only [settleAux] at h
      cases h
      exact ⟨rfl, rfl, rfl⟩
    | succ n ih =>
      intro h
      by_cases hc : (phase s).2 = true
      · exact ih (phase s).1 (by simpa [settleAux, hc] using h)
      · simp only [Bool.not_eq_true] at hc
        simp [settleAux, hc] at h
  · intro t
    rfl

/-- Witness for claim C8 on an exhausted settle loop. -/
theorem claim_C8_error_paths_witness :
    (settleAux phaseAlways 0 (0 : Nat)).1 = Except.error vlSettleErr
    ∧ (vlSettleErr.file =
        "/home/tomorrow_arc1/CS/assassyn/MyCPU/workspace/driver/verilog/sv/hw/Top.sv" ∧
        vlSettleErr.line = 2 ∧ vlSettleErr.msg = "Settle region did not converge.") :=
  ⟨rfl, (claim_C8_error_paths Nat phaseAlways 0 0 vlSettleErr).1 rfl⟩

/-- Claim C9: immediately after eval_initial the previous-value snapshots of
the two sensitivity signals equal their current values, so the trigger
computation fires nothing on an unchanged store, and in general the posedge
clk trigger fires exactly when clk changed to high and the second trigger
fires exactly when clk changed to high or the cell reset changed to low: an
edge is detected if and only if the driver actually changed the signal in
the sensitised direction, never spuriously from an uninitialised previous
value. -/
theorem claim_C9_init_snapshots (s : Vtop___024root) :
    ((Vtop___024root___eval_initial s).__Vtrigprevexpr___TOP__clk__0 =
        (Vtop___024root___eval_initial s).clk
      ∧ (Vtop___024root___eval_initial
            s).__Vtrigprevexpr___TOP__Top__DOT____Vcellinp__TriggerCounterImpl__rst_n__0 =
          (Vtop___024root___eval_initial s).Top__DOT____Vcellinp__TriggerCounterImpl__rst_n)
    ∧ computeActTriggers (Vtop___024root___eval_initial s) = (false, false)
    ∧ ∀ u : Vtop___024root,
        ((computeActTriggers u).1 = true ↔
          (u.clk ≠ u.__Vtrigprevexpr___TOP__clk__0 ∧ u.clk = true))
        ∧ ((computeActTriggers u).2 = true ↔
            ((u.clk ≠ u.__Vtrigprevexpr___TOP__clk__0 ∧ u.clk = true) ∨
              (u.Top__DOT____Vcellinp__TriggerCounterImpl__rst_n ≠
                  u.__Vtrigprevexpr___TOP__Top__DOT____Vcellinp__TriggerCounterImpl__rst_n__0 ∧
                u.Top__DOT____Vcellinp__TriggerCounterImpl__rst_n = false))) := by
  refine ⟨⟨rfl, rfl⟩, ?_, ?_⟩
  · simp [computeActTriggers, Vtop___024root___eval_initial,
      Vtop___024root___eval_initial__TOP]
  · intro u
    constructor
    · cases hc : u.clk <;> cases hp : u.__Vtrigprevexpr___TOP__clk__0 <;>
        simp [computeActTriggers, hc, hp]
    · cases hc : u.clk <;> cases hp : u.__Vtrigprevexpr___TOP__clk__0 <;>
        cases hr : u.Top__DOT____Vcellinp__TriggerCounterImpl__rst_n <;>
          cases hq :
            u.__Vtrigprevexpr___TOP__Top__DOT____Vcellinp__TriggerCounterImpl__rst_n__0 <;>
            simp [computeActTriggers, hc, hp, hr, hq]

/-- Claim C10: the static-initialisation and finalisation operations leave
every field of the model state unchanged. -/
theorem claim_C10_static_final_frame (s : Vtop___024root) :
    Vtop___024root___eval_static s = s ∧ Vtop___024root___eval_final s = s :=
  ⟨rfl, rfl⟩
